import Mathlib

/-!
Verification of the FluxVision VMS core against its specification.

This file gives a shallow embedding, in Lean 4, of the parts of the
FluxVision video-management-system core that the checked claims are about:

* `src/core/threading/bounded_queue.h` — the SPSC bounded ring buffer;
* `src/core/gpu/memory_pool.cpp`      — the GPU memory accountant;
* `src/core/codec/types.h`            — quality levels and their mappings;
* `src/core/network/h264_parser.h`    — the bit reader and SPS parsing;
* `src/core/network/bitstream_parser.cpp` — NAL splitting by start codes;
* `src/core/codec/cpu_decoder.cpp`    — the software decoder control state;
* `src/core/codec/nvdec_decoder.cpp`  — the hardware decoder control state;
* `src/core/stream/camera_stream.cpp` — the camera session state machine.

Pure functions become Lean functions; stateful C++ objects become explicit
state records with state-passing operations.  Calls into external libraries
(FFmpeg, CUDA, NVCUVID) are modelled by passing the library's observable
outcome as an explicit argument (an oracle), so that the surrounding control
logic is embedded exactly as written.  `size_t` arithmetic that can wrap is
taken modulo `2 ^ 64`, `uint32_t` arithmetic modulo `2 ^ 32`.
-/

namespace fluxvision

/-! ## `src/core/codec/types.h` -/

/-- `enum class StreamQuality` from `types.h`. -/
inductive StreamQuality where
  | PAUSED
  | THUMBNAIL
  | GRID_VIEW
  | FOCUSED
  | FULLSCREEN
deriving DecidableEq, Repr

/-- `enum class DecodeStatus` from `types.h`. -/
inductive DecodeStatus where
  | SUCCESS
  | NEED_MORE_DATA
  | ERROR_INVALID_DATA
  | ERROR_DECODER_FAILURE
  | ERROR_OUT_OF_MEMORY
deriving DecidableEq, Repr

/-- `enum class PixelFormat` from `types.h`. -/
inductive PixelFormat where
  | NV12
  | YUV420P
  | RGBA
  | UNKNOWN
deriving DecidableEq, Repr

/-- `getTargetFPS` from `types.h` (switch over the quality enum). -/
def getTargetFPS : StreamQuality → Nat
  | .PAUSED => 1
  | .THUMBNAIL => 5
  | .GRID_VIEW => 10
  | .FOCUSED => 15
  | .FULLSCREEN => 30

/-- `getSurfacePoolSize` from `types.h` (switch over the quality enum). -/
def getSurfacePoolSize : StreamQuality → Nat
  | .PAUSED => 2
  | .THUMBNAIL => 4
  | .GRID_VIEW => 4
  | .FOCUSED => 8
  | .FULLSCREEN => 12

/-! ## `src/core/threading/bounded_queue.h`

`BoundedQueue<T>` is a fixed-capacity single-producer/single-consumer ring
buffer.  `head_` is the consumer index, `tail_` the producer index; the
constructor rounds a non-power-of-two capacity up to the next power of two.
The atomics' memory orders have no observable effect in a sequential
embedding, so indices are plain naturals here. -/

structure BoundedQueue (α : Type) where
  capacity : Nat
  buffer : List α
  head : Nat
  tail : Nat
deriving DecidableEq, Repr

namespace BoundedQueue

/-- The constructor's `while (pow2 < capacity) pow2 <<= 1` loop.  The fuel
argument only bounds the recursion; `fuel = capacity` is always enough
because the running power at least doubles each step starting from 1. -/
def nextPow2Loop (fuel pow2 cap : Nat) : Nat :=
  match fuel with
  | 0 => pow2
  | fuel + 1 => if pow2 < cap then nextPow2Loop fuel (pow2 <<< 1) cap else pow2

/-- `BoundedQueue(capacity)`: allocate `capacity` default-constructed slots,
then round the capacity up to a power of two when `capacity & (capacity-1)`
is nonzero, resizing the (still default-valued) buffer. -/
def mkQueue (dflt : α) (capacity : Nat) : BoundedQueue α :=
  if capacity &&& (capacity - 1) ≠ 0 then
    let c := nextPow2Loop capacity 1 capacity
    { capacity := c, buffer := List.replicate c dflt, head := 0, tail := 0 }
  else
    { capacity := capacity, buffer := List.replicate capacity dflt, head := 0, tail := 0 }

/-- `push`: fails (and leaves the queue unchanged) when advancing the tail
would collide with the head; otherwise stores at the current tail and
advances it.  Index arithmetic is `& (capacity_ - 1)` as in the source. -/
def push (q : BoundedQueue α) (item : α) : Bool × BoundedQueue α :=
  let currentTail := q.tail
  let nextTail := (currentTail + 1) &&& (q.capacity - 1)
  if nextTail = q.head then
    (false, q)
  else
    (true, { q with buffer := q.buffer.set currentTail item, tail := nextTail })

/-- `pop`: fails on empty (`head_ == tail_`); otherwise yields the element at
the head and advances the head. -/
def pop [Inhabited α] (q : BoundedQueue α) : Option α × BoundedQueue α :=
  if q.head = q.tail then
    (none, q)
  else
    (some (q.buffer.getD q.head default),
     { q with head := (q.head + 1) &&& (q.capacity - 1) })

/-- `pushOrDropOldest`: try `push`; on failure pop one element into a dummy
and push again. -/
def pushOrDropOldest [Inhabited α] (q : BoundedQueue α) (item : α) : BoundedQueue α :=
  let r := q.push item
  if r.1 then r.2
  else
    let p := q.pop
    (p.2.push item).2

/-- `size`: `tail - head` when the tail is ahead, else wrap around. -/
def size (q : BoundedQueue α) : Nat :=
  if q.tail ≥ q.head then q.tail - q.head else q.capacity - q.head + q.tail

/-- Observer (not in the source): the live contents of the ring, oldest
first, read out the same way `pop` would. -/
def toList [Inhabited α] (q : BoundedQueue α) : List α :=
  (List.range q.size).map fun k => q.buffer.getD ((q.head + k) &&& (q.capacity - 1)) default

end BoundedQueue

/-! ## `src/core/gpu/memory_pool.cpp` — the GPU memory accountant

`std::map<std::string, size_t>` becomes an association list (iteration order
is irrelevant to every claim; keys stay unique under the map operations).
`size_t` totals wrap modulo `2 ^ 64`. -/

/-- The modulus of `size_t` arithmetic. -/
def W64 : Nat := 2 ^ 64

/-- `std::map::find` on an association list. -/
def alistFind (m : List (String × Nat)) (k : String) : Option Nat :=
  match m with
  | [] => none
  | (k2, v) :: rest => if k2 = k then some v else alistFind rest k

/-- `map[k] = v`: overwrite the entry when present, else insert. -/
def alistInsert (m : List (String × Nat)) (k : String) (v : Nat) : List (String × Nat) :=
  match m with
  | [] => [(k, v)]
  | (k2, v2) :: rest =>
    if k2 = k then (k, v) :: rest else (k2, v2) :: alistInsert rest k v

/-- `map.erase(k)`: remove the entry for `k` (the first one; keys reachable
through the pool operations are unique). -/
def alistErase (m : List (String × Nat)) (k : String) : List (String × Nat) :=
  match m with
  | [] => []
  | (k2, v2) :: rest => if k2 = k then rest else (k2, v2) :: alistErase rest k

/-- Sum of the per-camera byte entries (the Σ of the conservation claim). -/
def sumBytes (m : List (String × Nat)) : Nat :=
  (m.map (·.2)).sum

/-- The accountant's mutable state from `GPUMemoryPool`. -/
structure GPUMemoryPool where
  perCameraMemory : List (String × Nat)
  perCameraSurfaces : List (String × Nat)
  totalAllocatedBytes : Nat
  peakAllocatedBytes : Nat
deriving DecidableEq, Repr

namespace GPUMemoryPool

/-- The freshly constructed pool (all counters zero, maps empty). -/
def init : GPUMemoryPool :=
  { perCameraMemory := [], perCameraSurfaces := [],
    totalAllocatedBytes := 0, peakAllocatedBytes := 0 }

/-- `registerAllocation`: overwrite the per-camera entries, add `bytes` to
the running total (in `size_t`), and raise the peak when exceeded.
Arguments are `size_t`, hence reduced modulo `2 ^ 64` on entry. -/
def registerAllocation (p : GPUMemoryPool) (cameraId : String)
    (bytes surfaceCount : Nat) : GPUMemoryPool :=
  let bytes := bytes % W64
  let newTotal := (p.totalAllocatedBytes + bytes) % W64
  { perCameraMemory := alistInsert p.perCameraMemory cameraId bytes
    perCameraSurfaces := alistInsert p.perCameraSurfaces cameraId (surfaceCount % W64)
    totalAllocatedBytes := newTotal
    peakAllocatedBytes :=
      if newTotal > p.peakAllocatedBytes then newTotal else p.peakAllocatedBytes }

/-- `unregisterAllocation`: when the camera is known, subtract its recorded
bytes from the total — but only when that cannot underflow — and erase both
entries.  Unknown cameras are ignored. -/
def unregisterAllocation (p : GPUMemoryPool) (cameraId : String) : GPUMemoryPool :=
  match alistFind p.perCameraMemory cameraId with
  | none => p
  | some bytes =>
    { perCameraMemory := alistErase p.perCameraMemory cameraId
      perCameraSurfaces := alistErase p.perCameraSurfaces cameraId
      totalAllocatedBytes :=
        if p.totalAllocatedBytes ≥ bytes then p.totalAllocatedBytes - bytes
        else p.totalAllocatedBytes
      peakAllocatedBytes := p.peakAllocatedBytes }

/-- `updateAllocation`: for a known camera, delta-adjust the total
(`oldTotal - oldBytes + newBytes` in `size_t`), overwrite the entries, and
raise the peak; for an unknown camera, fall through to
`registerAllocation`. -/
def updateAllocation (p : GPUMemoryPool) (cameraId : String)
    (newBytes newSurfaceCount : Nat) : GPUMemoryPool :=
  match alistFind p.perCameraMemory cameraId with
  | none => registerAllocation p cameraId newBytes newSurfaceCount
  | some oldBytes =>
    let newBytes := newBytes % W64
    let newTotal := (p.totalAllocatedBytes + (W64 - oldBytes) + newBytes) % W64
    { perCameraMemory := alistInsert p.perCameraMemory cameraId newBytes
      perCameraSurfaces := alistInsert p.perCameraSurfaces cameraId (newSurfaceCount % W64)
      totalAllocatedBytes := newTotal
      peakAllocatedBytes :=
        if newTotal > p.peakAllocatedBytes then newTotal else p.peakAllocatedBytes }

end GPUMemoryPool

/-- One call into the accountant's public interface. -/
inductive PoolOp where
  | register (cameraId : String) (bytes surfaceCount : Nat)
  | unregister (cameraId : String)
  | update (cameraId : String) (bytes surfaceCount : Nat)
deriving DecidableEq, Repr

/-- Apply one accountant call. -/
def poolStep (p : GPUMemoryPool) : PoolOp → GPUMemoryPool
  | .register id bytes cnt => p.registerAllocation id bytes cnt
  | .unregister id => p.unregisterAllocation id
  | .update id bytes cnt => p.updateAllocation id bytes cnt

/-- Run a sequence of accountant calls. -/
def poolExec (p : GPUMemoryPool) (ops : List PoolOp) : GPUMemoryPool :=
  ops.foldl poolStep p

/-- Side conditions under which the conservation invariant can hold at all:
every `register` targets a camera id not currently registered (repeat
registrations are what `update` is for), and the true byte sum never reaches
`2 ^ 64` (no `size_t` overflow).  Checked along the execution, so the
predicate is decidable on concrete call sequences. -/
def poolOpOk (p : GPUMemoryPool) : PoolOp → Bool
  | .register id bytes _ =>
    (alistFind p.perCameraMemory id).isNone
      && sumBytes p.perCameraMemory + bytes % W64 < W64
  | .unregister _ => true
  | .update id bytes _ =>
    match alistFind p.perCameraMemory id with
    | some old => sumBytes p.perCameraMemory - old + bytes % W64 < W64
    | none => sumBytes p.perCameraMemory + bytes % W64 < W64

/-- `poolOpOk` checked along the whole execution. -/
def poolOpsOk (p : GPUMemoryPool) : List PoolOp → Bool
  | [] => true
  | op :: rest => poolOpOk p op && poolOpsOk (poolStep p op) rest

/-! ## `src/core/network/h264_parser.h` — bit reader and parameter-set parsing

Bytes are naturals below 256; pointer+size pairs become lists.  `uint32_t`
arithmetic is taken modulo `2 ^ 32`.  Two corners of the C++ are undefined
behaviour and are modelled by their mathematically natural reading (noted
inline): `1 << 32` inside `readUE`, and a `uint32_t` division by a wrapped
zero in the framerate computation. -/

/-- The modulus of `uint32_t` arithmetic. -/
def W32 : Nat := 2 ^ 32

/-- Store a `uint32_t` value into an `int` field (two's-complement). -/
def toInt32 (v : Nat) : Int :=
  if v % W32 ≥ 2 ^ 31 then (v % W32 : Int) - (W32 : Int) else (v % W32 : Int)

/-- Read an `int` field back as the `uint32_t` it converts to. -/
def toUInt32n (v : Int) : Nat :=
  (v % (W32 : Int)).toNat

/-- `struct SPSInfo` from the network types header. -/
structure SPSInfo where
  width : Int
  height : Int
  framerate : Int
  profile : Int
  level : Int
  interlaced : Bool
deriving DecidableEq, Repr

/-- Default-initialised `SPSInfo` (all fields zero / false). -/
def SPSInfo.zero : SPSInfo :=
  { width := 0, height := 0, framerate := 0, profile := 0, level := 0, interlaced := false }

namespace H264Parser

/-- `H264Parser::BitReader` state: the payload, the byte cursor and the bit
cursor (0–7). -/
structure BitReader where
  data : List Nat
  bytePos : Nat
  bitPos : Nat
deriving DecidableEq, Repr

namespace BitReader

/-- Fresh reader over a payload (`bytePos_ = 0`, `bitPos_ = 0`), the
two-argument constructor of the C++. -/
def init (d : List Nat) : BitReader :=
  { data := d, bytePos := 0, bitPos := 0 }

/-- `hasMoreData`: `bytePos_ < size_ || (bytePos_ == size_ - 1 && bitPos_ < 8)`.
The second disjunct is written `bytePos_ + 1 == size_` here, which agrees
with the `size_t` original for every size including 0 (where `size_ - 1`
wraps and the comparison is false). -/
def hasMoreData (r : BitReader) : Bool :=
  r.bytePos < r.data.length || (r.bytePos + 1 = r.data.length && r.bitPos < 8)

/-- The `for` loop of `readBits`: shift one bit in per iteration, returning
the partial result early when the byte cursor passes the end. -/
def readBitsLoop (r : BitReader) (n result : Nat) : Nat × BitReader :=
  match n with
  | 0 => (result, r)
  | n + 1 =>
    if r.bytePos ≥ r.data.length then (result, r)
    else
      let bit := (r.data.getD r.bytePos 0 >>> (7 - r.bitPos)) &&& 1
      let result := (result <<< 1) ||| bit
      let r :=
        if r.bitPos + 1 ≥ 8 then { r with bitPos := 0, bytePos := r.bytePos + 1 }
        else { r with bitPos := r.bitPos + 1 }
      readBitsLoop r n result

/-- `readBits(numBits)`: 0 (without consuming) when `numBits == 0` or no data
remains; otherwise the big-endian bit run. -/
def readBits (r : BitReader) (numBits : Nat) : Nat × BitReader :=
  if numBits = 0 ∨ ¬ r.hasMoreData then (0, r)
  else readBitsLoop r numBits 0

/-- The leading-zero loop of `readUE` plus its tail.  Structure of the C++:
count zero bits while data remains, giving up (returning 0) past 32 leading
zeros; then, unless no zero was counted, read that many more bits and
combine.  `(1 << leadingZeros) - 1 + value` is `uint32_t` arithmetic (and
formally undefined at `leadingZeros ≥ 31` in the C++: modelled here as the
value modulo `2 ^ 32`).  The fuel only bounds the recursion; 34 is enough
because the loop returns at the 33rd zero. -/
def readUEAux (r : BitReader) (leadingZeros : Nat) : Nat → Nat × BitReader
  | 0 => (0, r)
  | fuel + 1 =>
    if r.hasMoreData then
      let (b, r2) := r.readBits 1
      if b = 0 then
        let lz := leadingZeros + 1
        if lz > 32 then (0, r2)
        else readUEAux r2 lz fuel
      else
        if leadingZeros = 0 then (0, r2)
        else
          let (v, r3) := r2.readBits leadingZeros
          (((1 <<< leadingZeros) - 1 + v) % W32, r3)
    else
      if leadingZeros = 0 then (0, r)
      else
        let (v, r3) := r.readBits leadingZeros
        (((1 <<< leadingZeros) - 1 + v) % W32, r3)

/-- `readUE`: unsigned Exp-Golomb. -/
def readUE (r : BitReader) : Nat × BitReader :=
  readUEAux r 0 34

/-- `readSE`: signed Exp-Golomb, mapped from `readUE`'s code word. -/
def readSE (r : BitReader) : Int × BitReader :=
  let (code, r2) := r.readUE
  if code % 2 = 0 then (-(code / 2 : Int), r2) else (((code + 1) / 2 : Int), r2)

end BitReader

/-- `skipStartCode`: strip a 4-byte (`00 00 00 01`) or 3-byte (`00 00 01`)
Annex-B start code, or report none. -/
def skipStartCode (d : List Nat) : Option (List Nat) :=
  if d.length ≥ 4 ∧ d.getD 0 0 = 0 ∧ d.getD 1 0 = 0 ∧ d.getD 2 0 = 0 ∧ d.getD 3 0 = 1 then
    some (d.drop 4)
  else if d.length ≥ 3 ∧ d.getD 0 0 = 0 ∧ d.getD 1 0 = 0 ∧ d.getD 2 0 = 1 then
    some (d.drop 3)
  else
    none

/-- `H264Parser::NalInfo`.  NAL types keep their numeric values
(`IDR = 5`, `SPS = 7`, `PPS = 8`, `UNSPECIFIED = 0`), since the C++ casts
arbitrary five-bit values into the enum. -/
structure NalInfo where
  type : Nat
  isKeyframe : Bool
  refIdc : Nat
deriving DecidableEq, Repr

/-- `parseNalHeader`: strip a start code when present, then classify by the
first payload byte; IDR (5), SPS (7) and PPS (8) are keyframes. -/
def parseNalHeader (d : List Nat) : NalInfo :=
  let info : NalInfo := { type := 0, isKeyframe := false, refIdc := 0 }
  if d.length = 0 then info
  else
    let nalData := match skipStartCode d with
      | some nd => nd
      | none => d
    if nalData.length = 0 then info
    else
      let nalHeader := nalData.getD 0 0
      let t := nalHeader &&& 0x1F
      { type := t
        refIdc := (nalHeader >>> 5) &&& 0x03
        isKeyframe := t = 5 ∨ t = 7 ∨ t = 8 }

/-- `getNalType`. -/
def getNalType (d : List Nat) : Nat :=
  (parseNalHeader d).type

/-- `isKeyframe`. -/
def isKeyframeNal (d : List Nat) : Bool :=
  (parseNalHeader d).isKeyframe

/-- `readSE` repeated `n` times, keeping only the reader (the scaling-list
skip). -/
def readSEmany (r : BitReader) : Nat → BitReader
  | 0 => r
  | n + 1 => readSEmany (r.readSE).2 n

/-- The `seq_scaling_matrix` skip: for each list index, a present flag and,
when set, 16 (indices 0–5) or 64 (6–7) signed codes. -/
def scalingLists (r : BitReader) : List Nat → BitReader
  | [] => r
  | i :: rest =>
    let (flag, r) := r.readBits 1
    let r := if flag = 1 then readSEmany r (if i < 6 then 16 else 64) else r
    scalingLists r rest

/-- The `pic_order_cnt_type == 1` loop: `n` signed offsets. -/
def readOffsetsForRefFrames (r : BitReader) : Nat → BitReader
  | 0 => r
  | n + 1 => readOffsetsForRefFrames (r.readSE).2 n

/-- The field walk of `parseSPS_Simple`: the sequential reads of the source,
threading the bit reader and building the `SPSInfo`. -/
def parseSPSFields (r0 : BitReader) (sps : SPSInfo) : SPSInfo × BitReader :=
  let (profile, r) := r0.readBits 8
  let sps := { sps with profile := toInt32 profile }
  let (_, r) := r.readBits 8
  let (level, r) := r.readBits 8
  let sps := { sps with level := toInt32 level }
  let (_, r) := r.readUE
  let r :=
    if profile = 100 ∨ profile = 110 ∨ profile = 122 ∨ profile = 244 ∨ profile = 44
        ∨ profile = 83 ∨ profile = 86 ∨ profile = 118 ∨ profile = 128 then
      let (chromaFormatIdc, r) := r.readUE
      let r := if chromaFormatIdc = 3 then (r.readBits 1).2 else r
      let (_, r) := r.readUE
      let (_, r) := r.readUE
      let (_, r) := r.readBits 1
      let (seqScalingMatrix, r) := r.readBits 1
      if seqScalingMatrix = 1 then scalingLists r [0, 1, 2, 3, 4, 5, 6, 7] else r
    else r
  let (_, r) := r.readUE
  let (picOrderCntType, r) := r.readUE
  let r :=
    if picOrderCntType = 0 then (r.readUE).2
    else if picOrderCntType = 1 then
      let r := (r.readBits 1).2
      let r := (r.readSE).2
      let r := (r.readSE).2
      let (numRefFramesInPocCycle, r) := r.readUE
      readOffsetsForRefFrames r numRefFramesInPocCycle
    else r
  let (_, r) := r.readUE
  let (_, r) := r.readBits 1
  let (picWidthInMbsMinus1, r) := r.readUE
  let (picHeightInMapUnitsMinus1, r) := r.readUE
  let sps := { sps with width := toInt32 ((picWidthInMbsMinus1 + 1) * 16) }
  let sps := { sps with height := toInt32 ((picHeightInMapUnitsMinus1 + 1) * 16) }
  let (frameMbsOnlyFlag, r) := r.readBits 1
  let sps := { sps with interlaced := frameMbsOnlyFlag = 0 }
  let (sps, r) :=
    if frameMbsOnlyFlag = 0 then
      ({ sps with height := toInt32 (toUInt32n sps.height * 2) }, (r.readBits 1).2)
    else (sps, r)
  let (_, r) := r.readBits 1
  let (frameCroppingFlag, r) := r.readBits 1
  let (sps, r) :=
    if frameCroppingFlag = 1 then
      let (left, r) := r.readUE
      let (right, r) := r.readUE
      let (top, r) := r.readUE
      let (bottom, r) := r.readUE
      let sps := { sps with
        width := toInt32 (toUInt32n sps.width + (W32 - ((left + right) * 2) % W32)) }
      let sps := { sps with
        height := toInt32 (toUInt32n sps.height + (W32 - ((top + bottom) * 2) % W32)) }
      (sps, r)
    else (sps, r)
  let (vuiPresent, r) := r.readBits 1
  let (sps, r) :=
    if vuiPresent = 1 then
      let (aspectPresent, r) := r.readBits 1
      let r :=
        if aspectPresent = 1 then
          let (aspectRatioIdc, r) := r.readBits 8
          if aspectRatioIdc = 255 then ((r.readBits 16).2.readBits 16).2 else r
        else r
      let (overscanPresent, r) := r.readBits 1
      let r := if overscanPresent = 1 then (r.readBits 1).2 else r
      let (videoSignalPresent, r) := r.readBits 1
      let r :=
        if videoSignalPresent = 1 then
          let r := (r.readBits 3).2
          let r := (r.readBits 1).2
          let (colourDescPresent, r) := r.readBits 1
          if colourDescPresent = 1 then (((r.readBits 8).2.readBits 8).2.readBits 8).2
          else r
        else r
      let (chromaLocPresent, r) := r.readBits 1
      let r := if chromaLocPresent = 1 then ((r.readUE).2.readUE).2 else r
      let (timingPresent, r) := r.readBits 1
      if timingPresent = 1 then
        let (numUnitsInTick, r) := r.readBits 32
        let (timeScale, r) := r.readBits 32
        if numUnitsInTick > 0 then
          -- `time_scale / (2 * num_units_in_tick)` in `uint32_t`; the wrapped
          -- divisor can be 0 (C++ UB), in which case Nat division yields 0.
          ({ sps with framerate := toInt32 (timeScale / ((2 * numUnitsInTick) % W32)) }, r)
        else (sps, r)
      else (sps, r)
    else (sps, r)
  let sps := if sps.framerate = 0 then { sps with framerate := 25 } else sps
  (sps, r)

/-- `parseSPS_Simple`: the field walk above, then `return true` — the
function has no failing return; reads past the end of the payload simply
yield zeros. -/
def parseSPS_Simple (r0 : BitReader) (sps : SPSInfo) : Bool × SPSInfo × BitReader :=
  (true, parseSPSFields r0 sps)

/-- The part of `extractSPS` after the start-code strip: check the NAL type
byte, then hand the payload (header byte stripped) to `parseSPS_Simple`. -/
def extractSPSBody (nalData : List Nat) (sps : SPSInfo) : Bool × SPSInfo :=
  if (nalData.getD 0 0) &&& 0x1F ≠ 7 then (false, sps)
  else
    let res := parseSPS_Simple (BitReader.init (nalData.drop 1)) sps
    (res.1, res.2.1)

/-- `extractSPS`: validate size, strip the start code when present, then
check the NAL type and parse.  The output struct is only written by
`parseSPS_Simple`; every failing branch leaves it untouched.  A start-code-
only input makes the C++ read one byte past the buffer; that indeterminate
byte is modelled as 0 (the value is only compared against the SPS type). -/
def extractSPS (d : List Nat) (sps : SPSInfo) : Bool × SPSInfo :=
  if d.length < 4 then (false, sps)
  else
    extractSPSBody
      (match skipStartCode d with
        | some nd => nd
        | none => d)
      sps

end H264Parser

/-! ## `src/core/network/bitstream_parser.cpp` — NAL splitting -/

/-- `struct NalUnit` from the network types header (the RTP profile field is
constant `MAIN` throughout the claims and is omitted). -/
structure NalUnit where
  type : Nat
  data : List Nat
  pts : Int
  dts : Int
  isKeyframe : Bool
  width : Int
  height : Int
  framerate : Int
deriving DecidableEq, Repr

namespace BitstreamParser

/-- The scan loop of `findStartCodes`: the cursor jumps by 3 after a 3-byte
match, by 4 after a 4-byte match, else by 1; it stops at `size - 2`.  The
fuel only bounds the recursion (`size` is enough, as every step advances the
cursor by at least one). -/
def findStartCodesAux (d : List Nat) (i : Nat) : Nat → List Nat
  | 0 => []
  | fuel + 1 =>
    if i < d.length - 2 then
      if d.getD i 0 = 0 ∧ d.getD (i + 1) 0 = 0 ∧ d.getD (i + 2) 0 = 1 then
        i :: findStartCodesAux d (i + 3) fuel
      else if i < d.length - 3 ∧ d.getD i 0 = 0 ∧ d.getD (i + 1) 0 = 0
          ∧ d.getD (i + 2) 0 = 0 ∧ d.getD (i + 3) 0 = 1 then
        i :: findStartCodesAux d (i + 4) fuel
      else
        findStartCodesAux d (i + 1) fuel
    else []

/-- `findStartCodes`: positions of every Annex-B start code; empty for
buffers shorter than 3 bytes. -/
def findStartCodes (d : List Nat) : List Nat :=
  if d.length < 3 then [] else findStartCodesAux d 0 d.length

/-- `extractNalUnit`: copy the whole range (start code included), classify
via the header behind the start code, and for an SPS unit populate
width/height/framerate from `extractSPS`. -/
def extractNalUnit (d : List Nat) (timestamp : Int) : NalUnit :=
  let nal : NalUnit :=
    { type := 0, data := [], pts := timestamp, dts := timestamp,
      isKeyframe := false, width := 0, height := 0, framerate := 0 }
  if d.length = 0 then nal
  else
    let nal := { nal with data := d }
    match H264Parser.skipStartCode d with
    | none => nal
    | some nd =>
      if nd.length = 0 then nal
      else
        let nal := { nal with
          type := H264Parser.getNalType nd
          isKeyframe := H264Parser.isKeyframeNal nd }
        if nal.type = 7 then
          let (ok, sps) := H264Parser.extractSPS d SPSInfo.zero
          if ok then
            { nal with width := sps.width, height := sps.height, framerate := sps.framerate }
          else nal
        else nal

/-- The extraction loop of `parsePacket`: each start code delimits a range up
to the next start code (or the end of the buffer); units classified
`UNSPECIFIED` (type 0) are not emitted. -/
def extractLoop (d : List Nat) (timestamp : Int) : List Nat → List NalUnit
  | [] => []
  | s :: rest =>
    let e := match rest with
      | [] => d.length
      | s2 :: _ => s2
    let nalSize := e - s
    let tailUnits := extractLoop d timestamp rest
    if nalSize > 0 then
      let nal := extractNalUnit ((d.drop s).take nalSize) timestamp
      if nal.type ≠ 0 then nal :: tailUnits else tailUnits
    else tailUnits

/-- `parsePacket`: the emitted NAL units, in order, together with the count
the function returns.  (The C++ pushes onto a per-instance queue that starts
empty and is drained immediately by the caller.) -/
def parsePacket (d : List Nat) (timestamp : Int) : List NalUnit × Nat :=
  if d.length = 0 then ([], 0)
  else
    let startCodes := findStartCodes d
    if startCodes = [] then ([], 0)
    else
      let units := extractLoop d timestamp startCodes
      (units, units.length)

end BitstreamParser

/-! ## `src/core/codec/cpu_decoder.cpp` — software decoder control state

The FFmpeg calls (`avcodec_send_packet`, `avcodec_receive_frame`) are
external; their observable return codes are passed in as oracle arguments,
and the decoder's own control flow around them is embedded exactly. -/

/-- Return-code classes of `avcodec_send_packet`. -/
inductive SendPacketResult where
  | ok
  | eagain
  | endOfStream
  | err
deriving DecidableEq, Repr

/-- Return-code classes of `avcodec_receive_frame`. -/
inductive ReceiveFrameResult where
  | ok
  | eagain
  | endOfStream
  | err
deriving DecidableEq, Repr

/-- Pixel formats an `AVFrame` may carry, as `getFrame` distinguishes them. -/
inductive AvPixelFormat where
  | yuv420p
  | nv12
  | other
deriving DecidableEq, Repr

/-- The fields of the decoded `AVFrame` that `getFrame` copies out.  Plane
base pointers are opaque addresses. -/
structure AvFrameData where
  width : Nat
  height : Nat
  pts : Int
  pktDts : Int
  keyFlag : Bool
  format : AvPixelFormat
  plane0 : Nat
  plane1 : Nat
  plane2 : Nat
  linesize0 : Int
  linesize1 : Int
  linesize2 : Int
deriving DecidableEq, Repr

/-- The shared output descriptor `DecodedFrame` from `types.h`. -/
structure DecodedFrame where
  data0 : Nat
  data1 : Nat
  data2 : Nat
  pitch0 : Int
  pitch1 : Int
  pitch2 : Int
  width : Nat
  height : Nat
  format : PixelFormat
  pts : Int
  dts : Int
  isKeyframe : Bool
  cudaSurface : Nat
  cudaPitch : Int
deriving DecidableEq, Repr

/-- `CpuDecoder`'s control state. -/
structure CpuDecoderState where
  initialized : Bool
  avFrameAllocated : Bool
  frameAvailable : Bool
  framesDecoded : Nat
deriving DecidableEq, Repr

namespace CpuDecoder

/-- State after a successful `initialize`. -/
def initState : CpuDecoderState :=
  { initialized := true, avFrameAllocated := true, frameAvailable := false,
    framesDecoded := 0 }

/-- `decode(data, size)`: send the packet, then poll one frame.  `send` and
`recv` are the FFmpeg return codes for this input. -/
def decode (st : CpuDecoderState) (send : SendPacketResult)
    (recv : ReceiveFrameResult) : DecodeStatus × CpuDecoderState :=
  if ¬ st.initialized then (.ERROR_DECODER_FAILURE, st)
  else
    match send with
    | .eagain => (.NEED_MORE_DATA, st)
    | .endOfStream => (.SUCCESS, st)
    | .err => (.ERROR_INVALID_DATA, st)
    | .ok =>
      match recv with
      | .ok =>
        (.SUCCESS, { st with frameAvailable := true, framesDecoded := st.framesDecoded + 1 })
      | .eagain => (.NEED_MORE_DATA, st)
      | .endOfStream => (.SUCCESS, st)
      | .err => (.ERROR_DECODER_FAILURE, st)

/-- `getFrame()`: null unless a frame is pending; map the `AVFrame` into the
shared descriptor by pixel format, marking the frame consumed — except on an
unsupported pixel format, where the C++ returns null early and the pending
flag stays set. -/
def getFrame (st : CpuDecoderState) (frame : AvFrameData) :
    Option DecodedFrame × CpuDecoderState :=
  if ¬ st.frameAvailable ∨ ¬ st.avFrameAllocated then (none, st)
  else
    let base : DecodedFrame :=
      { data0 := 0, data1 := 0, data2 := 0, pitch0 := 0, pitch1 := 0, pitch2 := 0,
        width := frame.width, height := frame.height, format := .UNKNOWN,
        pts := frame.pts, dts := frame.pktDts, isKeyframe := frame.keyFlag,
        cudaSurface := 0, cudaPitch := 0 }
    match frame.format with
    | .yuv420p =>
      (some { base with
          format := .YUV420P
          data0 := frame.plane0, data1 := frame.plane1, data2 := frame.plane2
          pitch0 := frame.linesize0, pitch1 := frame.linesize1, pitch2 := frame.linesize2 },
       { st with frameAvailable := false })
    | .nv12 =>
      (some { base with
          format := .NV12
          data0 := frame.plane0, data1 := frame.plane1, data2 := 0
          pitch0 := frame.linesize0, pitch1 := frame.linesize1, pitch2 := 0 },
       { st with frameAvailable := false })
    | .other => (none, st)

/-- `flush`: drop the pending frame. -/
def flush (st : CpuDecoderState) : CpuDecoderState :=
  { st with frameAvailable := false }

/-- `reset`: flush and zero the frame counter. -/
def reset (st : CpuDecoderState) : CpuDecoderState :=
  { flush st with framesDecoded := 0 }

end CpuDecoder

/-! ## `src/core/codec/nvdec_decoder.cpp` — hardware decoder control state

The NVCUVID library calls are external.  `decode` hands a buffer to
`cuvidParseVideoData`, which either fails outright or fires a sequence of
callbacks into the decoder; that observable behaviour is the oracle here: an
optional list of callback events (`none` = the API call failed).  The GPU
copies inside the display callback move pixel data only and are not part of
any claim; the control state they surround (surface in-use bits, frame
queue) is embedded exactly. -/

/-- One pooled output surface (`NvdecDecoder::Surface`). -/
structure NvdecSurface where
  devicePtr : Nat
  pitch : Nat
  inUse : Bool
deriving DecidableEq, Repr

/-- One queued frame (`NvdecDecoder::FrameInfo`).  The index is an `int` in
the C++ (−1 meaning "no pool surface"). -/
structure NvdecFrameInfo where
  surfaceIndex : Int
  pts : Int
  isKeyframe : Bool
deriving DecidableEq, Repr

/-- `NvdecDecoder`'s control state.  `targetWidth`/`targetHeight` are
`decoderInfo_.ulTargetWidth/ulTargetHeight`; `decoderCreated` is
`decoder_ != nullptr`. -/
structure NvdecDecoderState where
  initialized : Bool
  decoderCreated : Bool
  quality : StreamQuality
  codedWidth : Nat
  codedHeight : Nat
  targetWidth : Nat
  targetHeight : Nat
  surfaces : List NvdecSurface
  frameQueue : List NvdecFrameInfo
  totalMemoryAllocated : Nat
  framesDecoded : Nat
deriving DecidableEq, Repr

/-- The stream format the sequence callback receives (`CUVIDEOFORMAT`). -/
structure VideoFormat where
  codedWidth : Nat
  codedHeight : Nat
  displayWidth : Nat
  displayHeight : Nat
deriving DecidableEq, Repr

/-- One callback event fired by `cuvidParseVideoData` during a `decode`
call, with the outcomes of the CUDA calls the handler itself makes. -/
inductive ParserEvent where
  | sequence (format : VideoFormat) (createOk : Bool) (allocPitch : Nat) (allocOk : Bool)
  | picDecode (decodeOk : Bool)
  | display (pts : Int) (pictureIndex : Nat) (mapOk : Bool)
deriving DecidableEq, Repr

namespace NvdecDecoder

/-- `freeSurfaces`: release every pooled surface and zero the tally. -/
def freeSurfaces (st : NvdecDecoderState) : NvdecDecoderState :=
  { st with surfaces := [], totalMemoryAllocated := 0 }

/-- `allocateSurfaces`: `getSurfacePoolSize(config_.quality)` surfaces, each
a pitched allocation of `pitch × (targetHeight + targetHeight/2)` bytes
(NV12: luma plus half-height chroma), all not-in-use.  `allocPitch` is the
pitch CUDA hands back; `allocOk = false` models an allocation failure, after
which every already-allocated surface is freed again. -/
def allocateSurfaces (st : NvdecDecoderState) (allocPitch : Nat) (allocOk : Bool) :
    NvdecDecoderState × Bool :=
  let numSurfaces := getSurfacePoolSize st.quality
  let totalHeight := st.targetHeight + st.targetHeight / 2
  if allocOk then
    ({ st with
        surfaces := (List.range numSurfaces).map fun i =>
          { devicePtr := (i + 1) * allocPitch * totalHeight, pitch := allocPitch,
            inUse := false }
        totalMemoryAllocated :=
          st.totalMemoryAllocated + numSurfaces * (allocPitch * totalHeight) },
     true)
  else
    ({ st with surfaces := [] }, false)

/-- `createDecoder`: destroy the old video decoder and surfaces, record the
new coded and target geometry, create the decoder (`createOk`), and allocate
the surface pool. -/
def createDecoder (st : NvdecDecoderState) (format : VideoFormat)
    (allocPitch : Nat) (createOk allocOk : Bool) : NvdecDecoderState × Bool :=
  let st := { freeSurfaces st with decoderCreated := false }
  let st := { st with
    codedWidth := format.codedWidth, codedHeight := format.codedHeight,
    targetWidth := format.displayWidth, targetHeight := format.displayHeight }
  if ¬ createOk then (st, false)
  else
    let st := { st with decoderCreated := true }
    let (st2, ok) := allocateSurfaces st allocPitch allocOk
    if ok then (st2, true)
    else ({ st2 with decoderCreated := false }, false)

/-- `handleVideoSequence`: (re)create the decoder when none exists or the
coded geometry changed; the return value (0 on failure, else the pool size)
is dropped here because the parser's reaction to it is already folded into
the event list. -/
def handleVideoSequence (st : NvdecDecoderState) (format : VideoFormat)
    (allocPitch : Nat) (createOk allocOk : Bool) : NvdecDecoderState :=
  if ¬ st.decoderCreated ∨ st.codedWidth ≠ format.codedWidth
      ∨ st.codedHeight ≠ format.codedHeight then
    (createDecoder st format allocPitch createOk allocOk).1
  else st

/-- First not-in-use surface, scanning from index 0 (the display callback's
selection loop). -/
def findFreeSurface : List NvdecSurface → Option Nat
  | [] => none
  | s :: rest =>
    if ¬ s.inUse then some 0
    else (findFreeSurface rest).map (· + 1)

/-- Mark the surface at `i` in-use. -/
def markInUse : List NvdecSurface → Nat → List NvdecSurface
  | [], _ => []
  | s :: rest, 0 => { s with inUse := true } :: rest
  | s :: rest, i + 1 => s :: markInUse rest i

/-- `handlePictureDisplay`: map the decoder's internal surface (`mapOk`),
claim the first free pool surface, copy both planes into it (a GPU-side
effect), and enqueue `(surfaceIndex, pts, keyframe)`; when every pool
surface is in use the frame is simply not enqueued.  The keyframe flag is
the source's simplified `picture_index == 0` test. -/
def handlePictureDisplay (st : NvdecDecoderState) (pts : Int)
    (pictureIndex : Nat) (mapOk : Bool) : NvdecDecoderState :=
  if ¬ mapOk then st
  else
    match findFreeSurface st.surfaces with
    | some i =>
      { st with
          surfaces := markInUse st.surfaces i
          frameQueue := st.frameQueue ++
            [{ surfaceIndex := (i : Int), pts := pts, isKeyframe := pictureIndex = 0 }]
          framesDecoded := st.framesDecoded + 1 }
    | none => st

/-- Apply one callback event.  `picDecode` only forwards picture parameters
to the GPU (`cuvidDecodePicture`) and touches no control state. -/
def applyEvent (st : NvdecDecoderState) : ParserEvent → NvdecDecoderState
  | .sequence format createOk allocPitch allocOk =>
    handleVideoSequence st format allocPitch createOk allocOk
  | .picDecode _ => st
  | .display pts pictureIndex mapOk => handlePictureDisplay st pts pictureIndex mapOk

/-- Apply the events fired during one `cuvidParseVideoData` call, in order. -/
def applyEvents (st : NvdecDecoderState) (events : List ParserEvent) : NvdecDecoderState :=
  events.foldl applyEvent st

/-- `decode(data, size)`: fail when uninitialised; otherwise push the packet
into the parser.  `outcome` is `none` when `cuvidParseVideoData` itself
fails, else the callback events it fired.  A successful parse is reported as
`SUCCESS` regardless of whether any frame became available. -/
def decode (st : NvdecDecoderState) (outcome : Option (List ParserEvent)) :
    DecodeStatus × NvdecDecoderState :=
  if ¬ st.initialized then (.ERROR_DECODER_FAILURE, st)
  else
    match outcome with
    | none => (.ERROR_DECODER_FAILURE, st)
    | some events => (.SUCCESS, applyEvents st events)

/-- `getFrame()`: pop the oldest queue entry and resolve the surface's plane
pointers (chroma at `base + targetHeight × pitch`).  The surface's in-use
bit is not touched. -/
def getFrame (st : NvdecDecoderState) : Option DecodedFrame × NvdecDecoderState :=
  match st.frameQueue with
  | [] => (none, st)
  | frameInfo :: rest =>
    let st := { st with frameQueue := rest }
    if 0 ≤ frameInfo.surfaceIndex ∧ frameInfo.surfaceIndex < (st.surfaces.length : Int) then
      let surface := st.surfaces.getD frameInfo.surfaceIndex.toNat
        { devicePtr := 0, pitch := 0, inUse := false }
      (some
        { data0 := surface.devicePtr
          data1 := surface.devicePtr + st.targetHeight * surface.pitch
          data2 := 0
          pitch0 := (surface.pitch : Int), pitch1 := (surface.pitch : Int), pitch2 := 0
          width := st.targetWidth, height := st.targetHeight
          format := .NV12
          pts := frameInfo.pts, dts := 0
          isKeyframe := frameInfo.isKeyframe
          cudaSurface := surface.devicePtr, cudaPitch := (surface.pitch : Int) },
       st)
    else (none, st)

/-- `setQuality`: no-op on the same quality; otherwise store it, free the
pool, and — when a video decoder exists — reallocate to the new
quality-derived size. -/
def setQuality (st : NvdecDecoderState) (quality : StreamQuality)
    (allocPitch : Nat) (allocOk : Bool) : NvdecDecoderState :=
  if quality = st.quality then st
  else
    let st := { st with quality := quality }
    let st := freeSurfaces st
    if st.decoderCreated then (allocateSurfaces st allocPitch allocOk).1 else st

/-- `reset`: empty the frame queue, mark every surface not-in-use, zero the
frame counter; nothing is deallocated. -/
def reset (st : NvdecDecoderState) : NvdecDecoderState :=
  { st with
      frameQueue := []
      surfaces := st.surfaces.map fun s => { s with inUse := false }
      framesDecoded := 0 }

end NvdecDecoder

/-! ## `src/core/stream/camera_stream.cpp` — the camera session

`start`, `stop` and `reconnect` drive the per-camera state atomic through
`updateState`.  The RTSP connect and decoder construction are external
(`rtspOk`, `decoderOk` oracles).  Each operation returns the list of
`updateState` calls it made — the `(old, new)` state transitions — together
with the final state, so that claims about the transition trace can be
stated. -/

/-- `enum class StreamState` from `camera_stream.h`. -/
inductive StreamState where
  | STOPPED
  | CONNECTING
  | RUNNING
  | ERROR
  | RECONNECTING
deriving DecidableEq, Repr

namespace CameraStream

/-- `start()`: no-op when already running; else Connecting, then Error on
RTSP or decoder failure, else Running. -/
def startRun (s : StreamState) (rtspOk decoderOk : Bool) :
    List (StreamState × StreamState) × StreamState :=
  if s = .RUNNING then ([], s)
  else
    if ¬ rtspOk then ([(s, .CONNECTING), (.CONNECTING, .ERROR)], .ERROR)
    else if ¬ decoderOk then ([(s, .CONNECTING), (.CONNECTING, .ERROR)], .ERROR)
    else ([(s, .CONNECTING), (.CONNECTING, .RUNNING)], .RUNNING)

/-- `stop()`: no-op when already stopped; else a single transition to
Stopped (plus teardown that touches no state atomic). -/
def stopRun (s : StreamState) : List (StreamState × StreamState) × StreamState :=
  if s = .STOPPED then ([], s) else ([(s, .STOPPED)], .STOPPED)

/-- `reconnect()`: no-op when already reconnecting; else Reconnecting, an
internal `stop()`, a 500 ms wait, and an internal `start()` — with no look
at the autoReconnect flag. -/
def reconnectRun (s : StreamState) (rtspOk decoderOk : Bool) :
    List (StreamState × StreamState) × StreamState :=
  if s = .RECONNECTING then ([], s)
  else
    let afterStop := stopRun .RECONNECTING
    let afterStart := startRun afterStop.2 rtspOk decoderOk
    ((s, .RECONNECTING) :: afterStop.1 ++ afterStart.1, afterStart.2)

/-- One external call into the session, with the oracle outcomes of the
work it triggers. -/
inductive SessionCall where
  | start (rtspOk decoderOk : Bool)
  | stop
  | reconnect (rtspOk decoderOk : Bool)
deriving DecidableEq, Repr

/-- Dispatch one call. -/
def callRun (s : StreamState) : SessionCall → List (StreamState × StreamState) × StreamState
  | .start rtspOk decoderOk => startRun s rtspOk decoderOk
  | .stop => stopRun s
  | .reconnect rtspOk decoderOk => reconnectRun s rtspOk decoderOk

/-- Run a sequence of calls, concatenating the transition traces. -/
def runCalls (s : StreamState) : List SessionCall →
    List (StreamState × StreamState) × StreamState
  | [] => ([], s)
  | c :: rest =>
    let r := callRun s c
    let r2 := runCalls r.2 rest
    (r.1 ++ r2.1, r2.2)

/-- Modelled from the spec: the camera-state transition relation of §3 of
the specification (Stopped→Connecting on start; Connecting→Running or
→Error; Running→Error; Error→Reconnecting only when autoReconnect is set;
Reconnecting→Running or →Error; Any→Stopped on stop).  This is the
comparison object for the refinement claim, written from the spec's words,
not from the code. -/
def specTrans (autoReconnect : Bool) : StreamState → StreamState → Bool
  | _, .STOPPED => true
  | .STOPPED, .CONNECTING => true
  | .CONNECTING, .RUNNING => true
  | .CONNECTING, .ERROR => true
  | .RUNNING, .ERROR => true
  | .ERROR, .RECONNECTING => autoReconnect
  | .RECONNECTING, .RUNNING => true
  | .RECONNECTING, .ERROR => true
  | _, _ => false

/-- The transition relation the code actually realises, read off the three
operations: `start` enters Connecting from Stopped or Error; Connecting
resolves to Running or Error; `stop` (external, or internal to `reconnect`)
enters Stopped from Running, Error or Reconnecting; `reconnect` enters
Reconnecting from Stopped, Running or Error — unconditionally. -/
def codeTrans : StreamState → StreamState → Bool
  | .STOPPED, .CONNECTING => true
  | .ERROR, .CONNECTING => true
  | .CONNECTING, .RUNNING => true
  | .CONNECTING, .ERROR => true
  | .RUNNING, .STOPPED => true
  | .ERROR, .STOPPED => true
  | .RECONNECTING, .STOPPED => true
  | .STOPPED, .RECONNECTING => true
  | .RUNNING, .RECONNECTING => true
  | .ERROR, .RECONNECTING => true
  | _, _ => false

/-- `CameraStream::setQuality` only stores the quality atomic (early return
on no change); the comment in the source defers decoder reinitialisation to
a later phase.  The session state carried here is the quality plus the
decoder it owns. -/
structure SessionState where
  quality : StreamQuality
  decoder : Option NvdecDecoderState
deriving DecidableEq, Repr

/-- `setQuality(quality)` on the session. -/
def setQuality (st : SessionState) (quality : StreamQuality) : SessionState :=
  if st.quality = quality then st else { st with quality := quality }

end CameraStream

/-! ## Concrete inputs used by the claim theorems -/

/-- Scenario A input: SPS stub, PPS, IDR slice, each behind a 4-byte
Annex-B start code. -/
def scenarioA : List Nat :=
  [0x00, 0x00, 0x00, 0x01, 0x67, 0x42, 0x00, 0x0A,
   0x00, 0x00, 0x00, 0x01, 0x68, 0xCE, 0x01, 0x0F,
   0x00, 0x00, 0x00, 0x01, 0x65, 0x88, 0x84]

/-- The queue of Scenario B: requested capacity 3. -/
def scenarioBQueue : BoundedQueue Nat :=
  BoundedQueue.mkQueue 0 3

/-- The queue after pushing 1, 2, 3 (each push succeeds). -/
def scenarioBQueue3 : BoundedQueue Nat :=
  (((scenarioBQueue.push 1).2.push 2).2.push 3).2

/-- A hardware decoder for C3/C4/C7: initialised, video decoder created. -/
def nvdecWith (quality : StreamQuality) (surfaces : List NvdecSurface) :
    NvdecDecoderState :=
  { initialized := true, decoderCreated := true, quality := quality,
    codedWidth := 1920, codedHeight := 1080, targetWidth := 1920, targetHeight := 1080,
    surfaces := surfaces, frameQueue := [], totalMemoryAllocated := 0,
    framesDecoded := 0 }

/-- C3's session: GRID_VIEW quality, decoder with its 4-surface pool. -/
def c3Decoder : NvdecDecoderState :=
  nvdecWith .GRID_VIEW
    [⟨4096, 2048, false⟩, ⟨8192, 2048, false⟩, ⟨12288, 2048, false⟩, ⟨16384, 2048, false⟩]

/-- C3's session state before the quality change. -/
def c3Session : CameraStream.SessionState :=
  { quality := .GRID_VIEW, decoder := some c3Decoder }

/-- C4's decoder: initialised, empty frame queue (e.g. right after an
SPS-only buffer was parsed: the parser accepts it but fires no display
callback). -/
def c4State : NvdecDecoderState :=
  nvdecWith .PAUSED [⟨4096, 2048, false⟩, ⟨8192, 2048, false⟩]

/-- C7's decoder: PAUSED quality, its 2-surface pool all free. -/
def c7S0 : NvdecDecoderState :=
  nvdecWith .PAUSED [⟨4096, 2048, false⟩, ⟨8192, 2048, false⟩]

/-- C7, round 1: one displayed picture, then `getFrame`. -/
def c7G1 : Option DecodedFrame × NvdecDecoderState :=
  NvdecDecoder.getFrame (NvdecDecoder.decode c7S0 (some [.display 100 0 true])).2

/-- C7, round 2. -/
def c7G2 : Option DecodedFrame × NvdecDecoderState :=
  NvdecDecoder.getFrame (NvdecDecoder.decode c7G1.2 (some [.display 200 1 true])).2

/-- C7, round 3: the pool is exhausted, the displayed picture is dropped. -/
def c7G3 : Option DecodedFrame × NvdecDecoderState :=
  NvdecDecoder.getFrame (NvdecDecoder.decode c7G2.2 (some [.display 300 2 true])).2

/-- C5's failing input: a PPS unit handed to the SPS extractor. -/
def c5BadInput : List Nat :=
  [0x00, 0x00, 0x00, 0x01, 0x68, 0xCE]

/-- C5's pre-populated output struct (to observe non-mutation). -/
def c5Sps : SPSInfo :=
  { width := 11, height := 22, framerate := 33, profile := 44, level := 55,
    interlaced := true }

/-- A bit reader positioned past the end of its payload. -/
def c5PastEndReader : H264Parser.BitReader :=
  { data := [0xAB, 0xCD], bytePos := 2, bitPos := 0 }

/-- C2's discipline-respecting call sequence (prefix part). -/
def c2OpsPre : List PoolOp :=
  [.register "a" 10 1, .register "b" 7 2, .update "a" 25 3]

/-- C2's discipline-respecting call sequence (suffix part). -/
def c2OpsSuf : List PoolOp :=
  [.unregister "b", .update "c" 4 1]

/-- C10's decoder state with a frame pending. -/
def c10State : CpuDecoderState :=
  { initialized := true, avFrameAllocated := true, frameAvailable := true,
    framesDecoded := 1 }

/-- C10's decoded `AVFrame`. -/
def c10Frame : AvFrameData :=
  { width := 16, height := 16, pts := 1, pktDts := 1, keyFlag := true,
    format := .yuv420p, plane0 := 1, plane1 := 2, plane2 := 3,
    linesize0 := 16, linesize1 := 8, linesize2 := 8 }

/-- C4's software-decoder state (freshly initialised). -/
def c4CpuState : CpuDecoderState :=
  CpuDecoder.initState

/-- C4's hardware decoder with one queued frame. -/
def c4QueuedState : NvdecDecoderState :=
  { c4State with frameQueue := [{ surfaceIndex := 0, pts := 100, isKeyframe := true }] }

/-- The accountant invariant of the conservation claim: the running total
equals the entry sum, the entry sum is representable in `size_t`, and so is
each entry. -/
def poolInv (p : GPUMemoryPool) : Prop :=
  p.totalAllocatedBytes = sumBytes p.perCameraMemory ∧
  sumBytes p.perCameraMemory < W64 ∧
  ∀ e ∈ p.perCameraMemory, e.2 < W64

/-- The states a camera can be in between calls: every public operation of
the session returns with the camera Stopped, Running or in Error. -/
def stablePost : StreamState → Bool
  | .STOPPED => true
  | .RUNNING => true
  | .ERROR => true
  | _ => false

/-! ## Claim theorems -/

/-- Claim C1, counterexample.  The claim asserts that with requested
capacity 3 (rounded up to 4) the pushes of 1, 2, 3, 4 all succeed.  On the
code, the ring keeps one slot empty to distinguish full from empty: the
capacity does round to 4 and the first three pushes succeed, but the fourth
push finds `nextTail == head` and fails. -/
theorem c1_push_four_fails :
    scenarioBQueue.capacity = 4 ∧
    (scenarioBQueue.push 1).1 = true ∧
    ((scenarioBQueue.push 1).2.push 2).1 = true ∧
    (((scenarioBQueue.push 1).2.push 2).2.push 3).1 = true ∧
    (scenarioBQueue3.push 4).1 = false := by
  decide

/-- Claim C1 (amended): with requested capacity 3 the queue's capacity
rounds to 4 but it holds at most three items; pushes of 1, 2, 3 succeed and
the push of 4 fails; `pushOrDropOldest(4)` then drops the oldest element,
leaving the queue holding [2, 3, 4]; three pops yield 2, 3, 4 in order, and
a fourth pop fails. -/
theorem c1_queue_scenario_amended :
    scenarioBQueue.capacity = 4 ∧
    (scenarioBQueue.push 1).1 = true ∧
    ((scenarioBQueue.push 1).2.push 2).1 = true ∧
    (((scenarioBQueue.push 1).2.push 2).2.push 3).1 = true ∧
    (scenarioBQueue3.push 4).1 = false ∧
    (scenarioBQueue3.pushOrDropOldest 4).toList = [2, 3, 4] ∧
    ((scenarioBQueue3.pushOrDropOldest 4).pop).1 = some 2 ∧
    (((scenarioBQueue3.pushOrDropOldest 4).pop).2.pop).1 = some 3 ∧
    ((((scenarioBQueue3.pushOrDropOldest 4).pop).2.pop).2.pop).1 = some 4 ∧
    (((((scenarioBQueue3.pushOrDropOldest 4).pop).2.pop).2.pop).2.pop).1 = none := by
  decide

/-- Claim C2, counterexample.  Registering the same camera twice (bytes 10,
then bytes 20) overwrites the per-camera entry but adds the full new amount
to the running total: the total becomes 30 while the per-camera entries sum
to 20, breaking `total = Σ per-camera bytes`. -/
theorem c2_repeated_register_breaks_conservation :
    ¬ ((poolExec .init [.register "a" 10 1, .register "a" 20 1]).totalAllocatedBytes
        = sumBytes (poolExec .init [.register "a" 10 1, .register "a" 20 1]).perCameraMemory) := by
  decide

/-- Claim C3, counterexample.  With a constructed decoder holding the
4-surface GRID_VIEW pool, the session's `setQuality(FULLSCREEN)` stores the
new quality but leaves the decoder completely untouched: its surface pool
still has 4 surfaces, not the 12 the claim requires (the forwarding to the
decoder's `setQuality` does not exist; the source defers it to a later
phase). -/
theorem c3_setquality_leaves_decoder_pool :
    (CameraStream.setQuality c3Session .FULLSCREEN).quality = .FULLSCREEN ∧
    (CameraStream.setQuality c3Session .FULLSCREEN).decoder = some c3Decoder ∧
    c3Decoder.surfaces.length = 4 ∧
    getSurfacePoolSize .FULLSCREEN = 12 ∧
    c3Decoder.quality = .GRID_VIEW := by
  decide

/-- Claim C4, counterexample.  The hardware decoder reports `SUCCESS`
whenever `cuvidParseVideoData` accepts the buffer — here a parse that fires
no display callback (e.g. an SPS-only buffer) — yet the immediately
following `getFrame` returns null because the frame queue is empty. -/
theorem c4_success_without_retrievable_frame :
    (NvdecDecoder.decode c4State (some [])).1 = .SUCCESS ∧
    (NvdecDecoder.getFrame (NvdecDecoder.decode c4State (some [])).2).1 = none := by
  decide

/-- Claim C6, counterexample.  Calling `reconnect()` while the camera is
Stopped performs the transition Stopped → Reconnecting — the very
transition the claim rules out, and one the spec's relation forbids whether
or not autoReconnect is set (the code never consults the flag). -/
theorem c6_stopped_to_reconnecting :
    (CameraStream.runCalls .STOPPED [.reconnect true true]).1.head?
      = some (.STOPPED, .RECONNECTING) ∧
    CameraStream.specTrans true .STOPPED .RECONNECTING = false ∧
    CameraStream.specTrans false .STOPPED .RECONNECTING = false := by
  decide

/-- Helper: one session call from a stable state (Stopped, Running or
Error) only performs transitions of the code's transition relation, and
returns with the camera in a stable state again. -/
theorem callRun_trace_ok (s : StreamState) (c : CameraStream.SessionCall)
    (hs : stablePost s = true) :
    (∀ t ∈ (CameraStream.callRun s c).1, CameraStream.codeTrans t.1 t.2 = true) ∧
    stablePost (CameraStream.callRun s c).2 = true := by
  cases c with
  | start rtspOk decoderOk =>
    cases s <;> cases rtspOk <;> cases decoderOk <;> revert hs <;> decide
  | stop =>
    cases s <;> revert hs <;> decide
  | reconnect rtspOk decoderOk =>
    cases s <;> cases rtspOk <;> cases decoderOk <;> revert hs <;> decide

/-- Helper: the transition-trace property extended over a call sequence. -/
theorem runCalls_trace_ok (calls : List CameraStream.SessionCall) :
    ∀ (s : StreamState), stablePost s = true →
    ∀ t ∈ (CameraStream.runCalls s calls).1, CameraStream.codeTrans t.1 t.2 = true := by
  induction calls with
  | nil =>
    intro s _ t ht
    simp [CameraStream.runCalls] at ht
  | cons c rest ih =>
    intro s hs t ht
    simp only [CameraStream.runCalls, List.mem_append] at ht
    rcases ht with h1 | h2
    · exact (callRun_trace_ok s c hs).1 t h1
    · exact ih _ (callRun_trace_ok s c hs).2 t h2

/-- Claim C6 (amended): starting from Stopped, every state transition the
camera performs under any sequence of start/stop/reconnect calls lies in
the transition relation the code realises — which extends the spec's
relation by Error → Connecting (start retries from Error without passing
through Reconnecting) and by unconditional entry into Reconnecting from
Stopped, Running or Error on `reconnect` (the autoReconnect flag is never
consulted, and the reconnect path passes through Stopped and Connecting on
its way back to Running or Error). -/
theorem c6_fsm_code_transitions (calls : List CameraStream.SessionCall)
    (t : StreamState × StreamState)
    (ht : t ∈ (CameraStream.runCalls .STOPPED calls).1) :
    CameraStream.codeTrans t.1 t.2 = true :=
  runCalls_trace_ok calls .STOPPED rfl t ht

/-- Claim C6 (amended), witness: the theorem applied to the one-call
sequence `reconnect` and its first transition, Stopped → Reconnecting. -/
theorem c6_fsm_code_transitions_witness :
    CameraStream.codeTrans .STOPPED .RECONNECTING = true :=
  c6_fsm_code_transitions [.reconnect true true] (.STOPPED, .RECONNECTING) (by decide)

/-- Claim C7 (code bug), evaluation at the failing input.  `getFrame` never
clears a surface's in-use bit, so with the 2-surface PAUSED pool: the first
two decode/getFrame rounds each hand out a frame and leave their surface
in-use; the third displayed picture finds no free surface and is silently
dropped (frame queue stays empty, `getFrame` yields null) while every
surface remains in-use — the pool is permanently exhausted until `reset`,
which does mark all surfaces free again. -/
theorem c7_surface_pool_exhaustion :
    c7G1.1.isSome = true ∧
    c7G2.1.isSome = true ∧
    (c7G2.2.surfaces.map NvdecSurface.inUse) = [true, true] ∧
    c7G3.1 = none ∧
    c7G3.2.frameQueue = [] ∧
    (c7G3.2.surfaces.map NvdecSurface.inUse) = [true, true] ∧
    ((NvdecDecoder.reset c7G3.2).surfaces.map NvdecSurface.inUse) = [false, false] := by
  decide

/-- Claim C8: on the Scenario A byte buffer the parser emits exactly three
NAL units, classified SPS (7), PPS (8), IDR (5) in that order, all marked
keyframe, each carrying its bytes with the 4-byte start code at the front. -/
theorem c8_scenario_a :
    (BitstreamParser.parsePacket scenarioA 0).2 = 3 ∧
    ((BitstreamParser.parsePacket scenarioA 0).1.map NalUnit.type) = [7, 8, 5] ∧
    ((BitstreamParser.parsePacket scenarioA 0).1.map NalUnit.isKeyframe)
      = [true, true, true] ∧
    ((BitstreamParser.parsePacket scenarioA 0).1.map NalUnit.data) =
      [[0x00, 0x00, 0x00, 0x01, 0x67, 0x42, 0x00, 0x0A],
       [0x00, 0x00, 0x00, 0x01, 0x68, 0xCE, 0x01, 0x0F],
       [0x00, 0x00, 0x00, 0x01, 0x65, 0x88, 0x84]] := by
  decide

/-- Helper: `extractSPS` either fails with the output untouched or reports
success — the field walk itself has no failing return. -/
theorem extractSPSBody_cases (nalData : List Nat) (sps : SPSInfo) :
    H264Parser.extractSPSBody nalData sps = (false, sps)
      ∨ (H264Parser.extractSPSBody nalData sps).1 = true := by
  unfold H264Parser.extractSPSBody
  split
  · exact Or.inl rfl
  · exact Or.inr rfl

/-- Helper: the same case split lifted through `extractSPS`. -/
theorem extractSPS_cases (d : List Nat) (sps : SPSInfo) :
    H264Parser.extractSPS d sps = (false, sps) ∨ (H264Parser.extractSPS d sps).1 = true := by
  unfold H264Parser.extractSPS
  split
  · exact Or.inl rfl
  · exact extractSPSBody_cases _ sps

/-- Claim C5: whenever SPS extraction fails (null/short input or a payload
whose NAL type is not SPS — the field walk itself cannot fail), the caller's
output struct is returned without any field changed; and a bit reader whose
cursor is at or past the end of its payload yields 0 from `readBits`. -/
theorem c5_sps_failure_no_mutation :
    (∀ (d : List Nat) (sps : SPSInfo),
        (H264Parser.extractSPS d sps).1 = false → (H264Parser.extractSPS d sps).2 = sps) ∧
    (∀ (r : H264Parser.BitReader) (n : Nat),
        r.data.length ≤ r.bytePos → (r.readBits n).1 = 0) := by
  constructor
  · intro d sps h
    rcases extractSPS_cases d sps with heq | htrue
    · rw [heq]
    · rw [htrue] at h
      exact absurd h (by decide)
  · intro r n h
    have h1 : ¬ r.bytePos < r.data.length := by omega
    have h2 : ¬ (r.bytePos + 1 = r.data.length) := by omega
    simp [H264Parser.BitReader.readBits, H264Parser.BitReader.hasMoreData, h1, h2]

/-- Claim C5, witness: the theorem applied to the concrete failing input (a
PPS payload handed to the SPS extractor with a pre-populated output) and to
a concrete past-end reader. -/
theorem c5_sps_failure_no_mutation_witness :
    (H264Parser.extractSPS c5BadInput c5Sps).2 = c5Sps ∧
    (c5PastEndReader.readBits 5).1 = 0 :=
  ⟨c5_sps_failure_no_mutation.1 c5BadInput c5Sps (by decide),
   c5_sps_failure_no_mutation.2 c5PastEndReader 5 (by decide)⟩

/-- Claim C10: the software decoder's `getFrame` consumes the one buffered
frame — whenever it returns a non-null frame, an immediately following
`getFrame` (no intervening decode) returns null, whatever `AVFrame` contents
the second call would observe. -/
theorem c10_get_frame_consumes (st : CpuDecoderState) (f1 f2 : AvFrameData)
    (h : ((CpuDecoder.getFrame st f1).1).isSome = true) :
    (CpuDecoder.getFrame (CpuDecoder.getFrame st f1).2 f2).1 = none := by
  rcases st with ⟨ini, alloc, avail, n⟩
  cases avail <;> cases alloc <;> cases hf : f1.format <;>
    simp_all [CpuDecoder.getFrame]

/-- Claim C10, witness: the theorem applied at a concrete pending-frame
state and frame. -/
theorem c10_get_frame_consumes_witness :
    (CpuDecoder.getFrame (CpuDecoder.getFrame c10State c10Frame).2 c10Frame).1 = none :=
  c10_get_frame_consumes c10State c10Frame c10Frame (by decide)

/-- Claim C3 (amended): the session's `set_quality(q)` stores the new
quality on the session but does not forward anything to the decoder — the
decoder it owns is left unchanged, so its surface pool keeps its previous size.
The decoder-side `setQuality` itself, were it called with a different
quality on a created decoder and a successful allocation, would resize the
pool to `getSurfacePoolSize(q)`; the session simply never calls it. -/
theorem c3_setquality_amended :
    (∀ (st : CameraStream.SessionState) (q : StreamQuality),
        (CameraStream.setQuality st q).quality = q ∧
        (CameraStream.setQuality st q).decoder = st.decoder) ∧
    (∀ (d : NvdecDecoderState) (q : StreamQuality) (pitch : Nat),
        q ≠ d.quality → d.decoderCreated = true →
        (NvdecDecoder.setQuality d q pitch true).surfaces.length = getSurfacePoolSize q) := by
  constructor
  · intro st q
    unfold CameraStream.setQuality
    split
    · simp_all
    · simp
  · intro d q pitch hne hcreated
    simp [NvdecDecoder.setQuality, NvdecDecoder.freeSurfaces,
      NvdecDecoder.allocateSurfaces, hne, hcreated]

/-- Claim C3 (amended), witness: the theorem applied at the concrete
GRID_VIEW session and decoder, switching to FULLSCREEN. -/
theorem c3_setquality_amended_witness :
    (CameraStream.setQuality c3Session .FULLSCREEN).quality = .FULLSCREEN ∧
    (CameraStream.setQuality c3Session .FULLSCREEN).decoder = c3Session.decoder ∧
    (NvdecDecoder.setQuality c3Decoder .FULLSCREEN 2048 true).surfaces.length
      = getSurfacePoolSize .FULLSCREEN :=
  ⟨(c3_setquality_amended.1 c3Session .FULLSCREEN).1,
   (c3_setquality_amended.1 c3Session .FULLSCREEN).2,
   c3_setquality_amended.2 c3Decoder .FULLSCREEN 2048 (by decide) (by decide)⟩

/-- Claim C4 (amended): `decode` returning Success does not by itself
guarantee a retrievable frame.  What does hold: (a) the software decoder's
Success in the frame-received case (`avcodec_receive_frame` returned a
frame) makes the immediately following `get_frame` non-null whenever the
frame's pixel format is supported; (b) the hardware decoder returns Success
exactly when the parser accepts the buffer, independent of frames; and (c)
its `get_frame` is non-null precisely when the frame queue is nonempty with
a valid surface index — in the end-of-stream and no-display cases Success
comes with a null `get_frame`. -/
theorem c4_decode_success_amended :
    (∀ (st : CpuDecoderState) (frame : AvFrameData),
        st.initialized = true → st.avFrameAllocated = true → frame.format ≠ .other →
        ((CpuDecoder.getFrame (CpuDecoder.decode st .ok .ok).2 frame).1).isSome = true) ∧
    (∀ (st : NvdecDecoderState) (events : List ParserEvent),
        st.initialized = true →
        (NvdecDecoder.decode st (some events)).1 = .SUCCESS) ∧
    (∀ (st : NvdecDecoderState) (fi : NvdecFrameInfo) (rest : List NvdecFrameInfo),
        st.frameQueue = fi :: rest →
        0 ≤ fi.surfaceIndex → fi.surfaceIndex < (st.surfaces.length : Int) →
        ((NvdecDecoder.getFrame st).1).isSome = true) := by
  refine ⟨?_, ?_, ?_⟩
  · intro st frame hinit halloc hfmt
    rcases st with ⟨ini, alloc, avail, n⟩
    simp_all [CpuDecoder.decode, CpuDecoder.getFrame]
    cases hf : frame.format <;> simp_all
  · intro st events hinit
    simp [NvdecDecoder.decode, hinit]
  · intro st fi rest hq h0 hlen
    simp [NvdecDecoder.getFrame, hq, h0, hlen]

/-- Claim C4 (amended), witness: the theorem applied at a freshly
initialised software decoder with a YUV420P frame, at the hardware decoder
with an empty event list, and at the hardware decoder with one queued
frame. -/
theorem c4_decode_success_amended_witness :
    ((CpuDecoder.getFrame (CpuDecoder.decode c4CpuState .ok .ok).2 c10Frame).1).isSome
      = true ∧
    (NvdecDecoder.decode c4State (some [])).1 = .SUCCESS ∧
    ((NvdecDecoder.getFrame c4QueuedState).1).isSome = true :=
  ⟨c4_decode_success_amended.1 c4CpuState c10Frame rfl rfl (by decide),
   c4_decode_success_amended.2.1 c4State [] rfl,
   c4_decode_success_amended.2.2 c4QueuedState
     { surfaceIndex := 0, pts := 100, isKeyframe := true } [] rfl (by decide) (by decide)⟩

/-- Helper: unfolding `sumBytes` over a cons cell. -/
theorem sumBytes_cons (k : String) (v : Nat) (rest : List (String × Nat)) :
    sumBytes ((k, v) :: rest) = v + sumBytes rest := by
  simp [sumBytes]

/-- Helper: a successful lookup names an entry of the list. -/
theorem alistFind_mem {m : List (String × Nat)} {k : String} {v : Nat}
    (h : alistFind m k = some v) : (k, v) ∈ m := by
  induction m with
  | nil => simp [alistFind] at h
  | cons e rest ih =>
    obtain ⟨k2, v2⟩ := e
    simp only [alistFind] at h
    split at h
    · simp_all
    · exact List.mem_cons_of_mem _ (ih h)

/-- Helper: every entry's value is at most the entry sum. -/
theorem mem_le_sumBytes {m : List (String × Nat)} {k : String} {v : Nat}
    (h : (k, v) ∈ m) : v ≤ sumBytes m := by
  induction m with
  | nil => simp at h
  | cons e rest ih =>
    obtain ⟨k2, v2⟩ := e
    rcases List.mem_cons.mp h with heq | hmem
    · cases heq
      simp [sumBytes_cons]
    · have := ih hmem
      rw [sumBytes_cons]
      omega

/-- Helper: inserting a fresh key adds its value to the entry sum. -/
theorem sumBytes_insert_fresh {m : List (String × Nat)} {k : String} (v : Nat)
    (h : alistFind m k = none) :
    sumBytes (alistInsert m k v) = sumBytes m + v := by
  induction m with
  | nil => simp [alistInsert, sumBytes]
  | cons e rest ih =>
    obtain ⟨k2, v2⟩ := e
    simp only [alistFind] at h
    split at h
    · simp at h
    · simp only [alistInsert]
      rw [if_neg (by assumption)]
      rw [sumBytes_cons, sumBytes_cons, ih h]
      omega

/-- Helper: overwriting a present key exchanges the old value for the new in
the entry sum. -/
theorem sumBytes_insert_found {m : List (String × Nat)} {k : String} {old : Nat} (v : Nat)
    (h : alistFind m k = some old) :
    sumBytes (alistInsert m k v) + old = sumBytes m + v := by
  induction m with
  | nil => simp [alistFind] at h
  | cons e rest ih =>
    obtain ⟨k2, v2⟩ := e
    simp only [alistFind] at h
    split at h
    · obtain rfl : v2 = old := by simpa using h
      simp only [alistInsert]
      rw [if_pos (by assumption)]
      rw [sumBytes_cons, sumBytes_cons]
      omega
    · simp only [alistInsert]
      rw [if_neg (by assumption)]
      rw [sumBytes_cons, sumBytes_cons]
      have := ih h
      omega

/-- Helper: erasing a present key removes exactly its value from the entry
sum. -/
theorem sumBytes_erase_found {m : List (String × Nat)} {k : String} {old : Nat}
    (h : alistFind m k = some old) :
    sumBytes (alistErase m k) + old = sumBytes m := by
  induction m with
  | nil => simp [alistFind] at h
  | cons e rest ih =>
    obtain ⟨k2, v2⟩ := e
    simp only [alistFind] at h
    split at h
    · obtain rfl : v2 = old := by simpa using h
      simp only [alistErase]
      rw [if_pos (by assumption), sumBytes_cons]
      omega
    · simp only [alistErase]
      rw [if_neg (by assumption), sumBytes_cons, sumBytes_cons]
      have := ih h
      omega

/-- Helper: an entry of the overwritten list is the new entry or an old one. -/
theorem mem_alistInsert {m : List (String × Nat)} {k : String} {v : Nat}
    {e : String × Nat} (h : e ∈ alistInsert m k v) : e = (k, v) ∨ e ∈ m := by
  induction m with
  | nil =>
    simp [alistInsert] at h
    exact Or.inl h
  | cons e2 rest ih =>
    obtain ⟨k2, v2⟩ := e2
    simp only [alistInsert] at h
    split at h
    · rcases List.mem_cons.mp h with heq | hmem
      · exact Or.inl heq
      · exact Or.inr (List.mem_cons_of_mem _ hmem)
    · rcases List.mem_cons.mp h with heq | hmem
      · exact Or.inr (heq ▸ List.mem_cons_self _ _)
      · rcases ih hmem with h1 | h2
        · exact Or.inl h1
        · exact Or.inr (List.mem_cons_of_mem _ h2)

/-- Helper: erasure only removes entries. -/
theorem mem_alistErase {m : List (String × Nat)} {k : String}
    {e : String × Nat} (h : e ∈ alistErase m k) : e ∈ m := by
  induction m with
  | nil => simp [alistErase] at h
  | cons e2 rest ih =>
    obtain ⟨k2, v2⟩ := e2
    simp only [alistErase] at h
    split at h
    · exact List.mem_cons_of_mem _ h
    · rcases List.mem_cons.mp h with heq | hmem
      · exact heq ▸ List.mem_cons_self _ _
      · exact List.mem_cons_of_mem _ (ih hmem)

/-- Helper: `2 ^ 64` is positive. -/
theorem w64_pos : 0 < W64 := by
  decide

/-- Helper: a fresh, non-overflowing `registerAllocation` preserves the
accountant invariant. -/
theorem registerAllocation_inv {p : GPUMemoryPool} {id : String} {bytes cnt : Nat}
    (hinv : poolInv p)
    (hfresh : alistFind p.perCameraMemory id = none)
    (hbound : sumBytes p.perCameraMemory + bytes % W64 < W64) :
    poolInv (p.registerAllocation id bytes cnt) := by
  obtain ⟨htot, hsum, hent⟩ := hinv
  have hins := sumBytes_insert_fresh (m := p.perCameraMemory) (bytes % W64) hfresh
  refine ⟨?_, ?_, ?_⟩
  · simp only [GPUMemoryPool.registerAllocation]
    rw [hins, htot]
    exact Nat.mod_eq_of_lt (by omega)
  · simp only [GPUMemoryPool.registerAllocation]
    rw [hins]
    omega
  · intro e he
    simp only [GPUMemoryPool.registerAllocation] at he
    rcases mem_alistInsert he with rfl | hmem
    · exact Nat.mod_lt _ w64_pos
    · exact hent _ hmem

/-- Helper: one accountant call that respects the call discipline preserves
the accountant invariant. -/
theorem poolStep_inv {p : GPUMemoryPool} {op : PoolOp} (hinv : poolInv p)
    (hok : poolOpOk p op = true) : poolInv (poolStep p op) := by
  cases op with
  | register id bytes cnt =>
    simp only [poolOpOk, Bool.and_eq_true, Option.isNone_iff_eq_none,
      decide_eq_true_eq] at hok
    exact registerAllocation_inv hinv hok.1 hok.2
  | unregister id =>
    obtain ⟨htot, hsum, hent⟩ := hinv
    cases hfind : alistFind p.perCameraMemory id with
    | none =>
      simp only [poolStep, GPUMemoryPool.unregisterAllocation, hfind]
      exact ⟨htot, hsum, hent⟩
    | some bytes0 =>
      have hmem := alistFind_mem hfind
      have hle : bytes0 ≤ sumBytes p.perCameraMemory := mem_le_sumBytes hmem
      have her := sumBytes_erase_found hfind
      simp only [poolStep, GPUMemoryPool.unregisterAllocation, hfind]
      refine ⟨?_, ?_, ?_⟩
      · show (if p.totalAllocatedBytes ≥ bytes0 then p.totalAllocatedBytes - bytes0
            else p.totalAllocatedBytes) = sumBytes (alistErase p.perCameraMemory id)
        rw [if_pos (by omega)]
        omega
      · show sumBytes (alistErase p.perCameraMemory id) < W64
        omega
      · intro e he
        exact hent _ (mem_alistErase he)
  | update id bytes cnt =>
    cases hfind : alistFind p.perCameraMemory id with
    | none =>
      simp only [poolOpOk, hfind, decide_eq_true_eq] at hok
      simp only [poolStep, GPUMemoryPool.updateAllocation, hfind]
      exact registerAllocation_inv hinv hfind hok
    | some old =>
      obtain ⟨htot, hsum, hent⟩ := hinv
      simp only [poolOpOk, hfind, decide_eq_true_eq] at hok
      have hmem := alistFind_mem hfind
      have hle : old ≤ sumBytes p.perCameraMemory := mem_le_sumBytes hmem
      have holdW : old < W64 := hent _ hmem
      have hins := sumBytes_insert_found (m := p.perCameraMemory) (bytes % W64) hfind
      simp only [poolStep, GPUMemoryPool.updateAllocation, hfind]
      refine ⟨?_, ?_, ?_⟩
      · show (p.totalAllocatedBytes + (W64 - old) + bytes % W64) % W64
            = sumBytes (alistInsert p.perCameraMemory id (bytes % W64))
        have harith :
            p.totalAllocatedBytes + (W64 - old) + bytes % W64
              = W64 + (sumBytes p.perCameraMemory - old + bytes % W64) := by
          omega
        rw [harith, Nat.add_mod_left, Nat.mod_eq_of_lt hok]
        omega
      · show sumBytes (alistInsert p.perCameraMemory id (bytes % W64)) < W64
        omega
      · intro e he
        rcases mem_alistInsert he with rfl | hmem2
        · exact Nat.mod_lt _ w64_pos
        · exact hent _ hmem2

/-- Helper: no accountant call ever lowers the recorded peak. -/
theorem poolStep_peak_mono (p : GPUMemoryPool) (op : PoolOp) :
    p.peakAllocatedBytes ≤ (poolStep p op).peakAllocatedBytes := by
  cases op with
  | register id bytes cnt =>
    simp only [poolStep, GPUMemoryPool.registerAllocation]
    split <;> omega
  | unregister id =>
    cases hfind : alistFind p.perCameraMemory id with
    | none => simp [poolStep, GPUMemoryPool.unregisterAllocation, hfind]
    | some bytes0 => simp [poolStep, GPUMemoryPool.unregisterAllocation, hfind]
  | update id bytes cnt =>
    cases hfind : alistFind p.perCameraMemory id with
    | none =>
      simp only [poolStep, GPUMemoryPool.updateAllocation, hfind,
        GPUMemoryPool.registerAllocation]
      split <;> omega
    | some old =>
      simp only [poolStep, GPUMemoryPool.updateAllocation, hfind]
      show p.peakAllocatedBytes ≤
        (if (p.totalAllocatedBytes + (W64 - old) + bytes % W64) % W64
              > p.peakAllocatedBytes then
          (p.totalAllocatedBytes + (W64 - old) + bytes % W64) % W64
        else p.peakAllocatedBytes)
      split <;> omega

/-- Helper: the peak stays at or above the running total across any call. -/
theorem poolStep_total_le_peak {p : GPUMemoryPool} (op : PoolOp)
    (h : p.totalAllocatedBytes ≤ p.peakAllocatedBytes) :
    (poolStep p op).totalAllocatedBytes ≤ (poolStep p op).peakAllocatedBytes := by
  cases op with
  | register id bytes cnt =>
    simp only [poolStep, GPUMemoryPool.registerAllocation]
    split <;> omega
  | unregister id =>
    cases hfind : alistFind p.perCameraMemory id with
    | none => simpa [poolStep, GPUMemoryPool.unregisterAllocation, hfind] using h
    | some bytes0 =>
      simp only [poolStep, GPUMemoryPool.unregisterAllocation, hfind]
      show (if p.totalAllocatedBytes ≥ bytes0 then p.totalAllocatedBytes - bytes0
          else p.totalAllocatedBytes) ≤ p.peakAllocatedBytes
      split <;> omega
  | update id bytes cnt =>
    cases hfind : alistFind p.perCameraMemory id with
    | none =>
      simp only [poolStep, GPUMemoryPool.updateAllocation, hfind,
        GPUMemoryPool.registerAllocation]
      split <;> omega
    | some old =>
      simp only [poolStep, GPUMemoryPool.updateAllocation, hfind]
      show (p.totalAllocatedBytes + (W64 - old) + bytes % W64) % W64 ≤
        (if (p.totalAllocatedBytes + (W64 - old) + bytes % W64) % W64
              > p.peakAllocatedBytes then
          (p.totalAllocatedBytes + (W64 - old) + bytes % W64) % W64
        else p.peakAllocatedBytes)
      split <;> omega

/-- Helper: the invariant carries through a disciplined call sequence. -/
theorem poolExec_inv : ∀ (ops : List PoolOp) (p : GPUMemoryPool),
    poolInv p → poolOpsOk p ops = true → poolInv (poolExec p ops)
  | [], _, hinv, _ => hinv
  | op :: rest, p, hinv, hok => by
    simp only [poolOpsOk, Bool.and_eq_true] at hok
    exact poolExec_inv rest (poolStep p op) (poolStep_inv hinv hok.1) hok.2

/-- Helper: the peak is monotone along any call sequence. -/
theorem poolExec_peak_mono : ∀ (ops : List PoolOp) (p : GPUMemoryPool),
    p.peakAllocatedBytes ≤ (poolExec p ops).peakAllocatedBytes
  | [], _ => le_refl _
  | op :: rest, p =>
    le_trans (poolStep_peak_mono p op) (poolExec_peak_mono rest (poolStep p op))

/-- Helper: `total ≤ peak` carries through any call sequence. -/
theorem poolExec_total_le_peak : ∀ (ops : List PoolOp) (p : GPUMemoryPool),
    p.totalAllocatedBytes ≤ p.peakAllocatedBytes →
    (poolExec p ops).totalAllocatedBytes ≤ (poolExec p ops).peakAllocatedBytes
  | [], _, h => h
  | op :: rest, p, h =>
    poolExec_total_le_peak rest (poolStep p op) (poolStep_total_le_peak op h)

/-- Helper: executing a concatenation is executing the parts in turn. -/
theorem poolExec_append (p : GPUMemoryPool) (l1 l2 : List PoolOp) :
    poolExec p (l1 ++ l2) = poolExec (poolExec p l1) l2 := by
  simp [poolExec, List.foldl_append]

/-- Helper: the freshly constructed pool satisfies the invariant. -/
theorem poolInv_init : poolInv GPUMemoryPool.init :=
  ⟨rfl, w64_pos, by intro e he; simp [GPUMemoryPool.init] at he⟩

/-- Claim C2 (amended): for every call sequence split `pre ++ suf` from the
fresh pool — the conservation half under the call discipline, the peak half
with no side condition at all.  When `register` is only ever used for camera
ids not currently registered (re-registration is `update`'s job — a repeated
`register` over-counts the total) and the true byte sum stays below
`2 ^ 64`, the running total equals the sum of the per-camera byte entries;
and for arbitrary sequences, disciplined or not, the recorded peak is at
least every total observed at any prefix of the sequence. -/
theorem c2_accountant_conservation (pre suf : List PoolOp) :
    (poolOpsOk GPUMemoryPool.init (pre ++ suf) = true →
      (poolExec GPUMemoryPool.init (pre ++ suf)).totalAllocatedBytes
        = sumBytes (poolExec GPUMemoryPool.init (pre ++ suf)).perCameraMemory) ∧
    (poolExec GPUMemoryPool.init pre).totalAllocatedBytes
      ≤ (poolExec GPUMemoryPool.init (pre ++ suf)).peakAllocatedBytes := by
  refine ⟨fun hok => (poolExec_inv _ _ poolInv_init hok).1, ?_⟩
  have h1 : (poolExec GPUMemoryPool.init pre).totalAllocatedBytes
      ≤ (poolExec GPUMemoryPool.init pre).peakAllocatedBytes :=
    poolExec_total_le_peak pre GPUMemoryPool.init (le_refl 0)
  have h2 : (poolExec GPUMemoryPool.init pre).peakAllocatedBytes
      ≤ (poolExec GPUMemoryPool.init (pre ++ suf)).peakAllocatedBytes := by
    rw [poolExec_append]
    exact poolExec_peak_mono suf _
  omega

/-- Claim C2 (amended), witness: the theorem applied to a concrete
disciplined sequence — register a and b, delta-update a, unregister b, and
an `update` of an unknown camera (which registers it) — discharging the
conservation half's discipline hypothesis there; and its unconditional peak
half applied to the undisciplined repeated-register sequence of the
counterexample. -/
theorem c2_accountant_conservation_witness :
    ((poolExec GPUMemoryPool.init (c2OpsPre ++ c2OpsSuf)).totalAllocatedBytes
      = sumBytes (poolExec GPUMemoryPool.init (c2OpsPre ++ c2OpsSuf)).perCameraMemory) ∧
    ((poolExec GPUMemoryPool.init c2OpsPre).totalAllocatedBytes
      ≤ (poolExec GPUMemoryPool.init (c2OpsPre ++ c2OpsSuf)).peakAllocatedBytes) ∧
    ((poolExec GPUMemoryPool.init [PoolOp.register "a" 10 1]).totalAllocatedBytes
      ≤ (poolExec GPUMemoryPool.init
          ([PoolOp.register "a" 10 1] ++ [PoolOp.register "a" 20 1])).peakAllocatedBytes) :=
  ⟨(c2_accountant_conservation c2OpsPre c2OpsSuf).1 (by decide),
   (c2_accountant_conservation c2OpsPre c2OpsSuf).2,
   (c2_accountant_conservation [PoolOp.register "a" 10 1] [PoolOp.register "a" 20 1]).2⟩

/-- Claim C9: `getTargetFPS` and `getSurfacePoolSize` are pure Lean
functions of the quality level alone, and on every quality level they
return exactly the spec table's values: Paused → (1, 2), Thumbnail → (5, 4),
GridView → (10, 4), Focused → (15, 8), Fullscreen → (30, 12). -/
theorem c9_quality_mapping :
    getTargetFPS .PAUSED = 1 ∧ getSurfacePoolSize .PAUSED = 2 ∧
    getTargetFPS .THUMBNAIL = 5 ∧ getSurfacePoolSize .THUMBNAIL = 4 ∧
    getTargetFPS .GRID_VIEW = 10 ∧ getSurfacePoolSize .GRID_VIEW = 4 ∧
    getTargetFPS .FOCUSED = 15 ∧ getSurfacePoolSize .FOCUSED = 8 ∧
    getTargetFPS .FULLSCREEN = 30 ∧ getSurfacePoolSize .FULLSCREEN = 12 := by
  decide

end fluxvision
